import Mathlib

/-!
Verification of the poll/wake task model, the executors and the channels of
the `futures` facade crate (futures-rs, SGX port).  The crate's only source
file, `src/futures/src/lib.rs`, is a facade: it re-exports `Fuse`,
`ThreadPool`, `LocalPool`, `oneshot`, `mpsc`, `AtomicWaker`, `Enter`, … from
the sibling crates `futures-core`, `futures-util`, `futures-executor` and
`futures-channel`, whose sources are not part of this tree.  Where a claim is
decided by such a re-exported component, the component is modelled from the
specification's own description (doc comment starting `Modelled from the
spec:`); the feature-gating facts are settled directly against `lib.rs`.
-/

namespace Futures

/-- Poll outcome of one advance step: `Ready result` or `Pending`
(spec section 3, "Poll outcome"). -/
inductive Poll (α : Type) where
  | Ready : α → Poll α
  | Pending : Poll α
deriving DecidableEq, Repr

/-- A unit of work (future) as a state machine: `poll` advances the current
state by one step and reports a poll outcome.  Shallow embedding of the
`Future` trait's single operation, advance(context) → Ready | Pending
(spec section 4.1). -/
structure FutureM (σ α : Type) where
  init : σ
  poll : σ → σ × Poll α

/-- Modelled from the spec: the `Fuse` combinator (re-exported at
src/futures/src/lib.rs line 147 from `futures_util::future`, implementation
not under src/).  The wrapper state is `some s` while the inner future is
live and `none` once it has produced `Ready`: after that the inner future is
dropped, is never advanced again, and every further poll of the wrapper
returns `Pending` — it never silently produces a new `Ready`. -/
def fusePoll (m : FutureM σ α) : Option σ → Option σ × Poll α
  | none => (none, Poll.Pending)
  | some s =>
      match m.poll s with
      | (s1, Poll.Pending) => (some s1, Poll.Pending)
      | (_, Poll.Ready v) => (none, Poll.Ready v)

/-- The state and outcome of the (n+1)-st poll of `Fuse(m)`, starting from
the freshly wrapped future. -/
def fuseSteps (m : FutureM σ α) : Nat → Option σ × Poll α
  | 0 => fusePoll m (some m.init)
  | n + 1 => fusePoll m (fuseSteps m n).1

theorem fusePoll_none (m : FutureM σ α) :
    fusePoll m none = (none, Poll.Pending) := rfl

theorem fusePoll_ready_state (m : FutureM σ α) (os : Option σ) (v : α)
    (h : (fusePoll m os).2 = Poll.Ready v) : (fusePoll m os).1 = none := by
  cases os with
  | none => simp [fusePoll] at h
  | some s =>
      unfold fusePoll at h ⊢
      rcases hp : m.poll s with ⟨s1, p⟩
      cases p <;> simp [hp] at h ⊢

theorem fuseSteps_none (m : FutureM σ α) (n : Nat)
    (h : (fuseSteps m n).1 = none) :
    ∀ k, (fuseSteps m (n + k + 1)).1 = none ∧
      (fuseSteps m (n + k + 1)).2 = Poll.Pending := by
  intro k
  induction k with
  | zero =>
      refine ⟨?_, ?_⟩
      · show (fusePoll m (fuseSteps m n).1).1 = none
        rw [h]
        rfl
      · show (fusePoll m (fuseSteps m n).1).2 = Poll.Pending
        rw [h]
        rfl
  | succ k ih =>
      have h1 : (fuseSteps m (n + k + 1)).1 = none := ih.1
      refine ⟨?_, ?_⟩
      · show (fusePoll m (fuseSteps m (n + k + 1)).1).1 = none
        rw [h1]
        rfl
      · show (fusePoll m (fuseSteps m (n + k + 1)).1).2 = Poll.Pending
        rw [h1]
        rfl

/-- C1: once a poll of the fused wrapper has returned `Ready`, the inner unit
of work is never advanced again (the wrapper state is `none`, i.e. the inner
future has been dropped), and every later poll of the wrapper returns
`Pending`, never a new `Ready`. -/
theorem fuse_never_ready_again (σ α : Type) (m : FutureM σ α) (v : α)
    (n : Nat) (h : (fuseSteps m n).2 = Poll.Ready v) :
    ∀ k, (fuseSteps m (n + k + 1)).1 = none ∧
      (fuseSteps m (n + k + 1)).2 = Poll.Pending := by
  have hstate : (fuseSteps m n).1 = none := by
    cases n with
    | zero => exact fusePoll_ready_state m (some m.init) v h
    | succ n => exact fusePoll_ready_state m (fuseSteps m n).1 v h
  exact fuseSteps_none m n hstate

/-- A future that is `Pending` on its first poll and `Ready 42` on its
second: a concrete input for the fuse theorem. -/
def pendingThenReady : FutureM Nat Nat :=
  { init := 0
    poll := fun s => if s = 0 then (1, Poll.Pending) else (s, Poll.Ready 42) }

/-- Witness for C1 at a concrete future: `Fuse` of `pendingThenReady` yields
`Ready 42` on poll 2, and poll 3 finds the inner future dropped and returns
`Pending`. -/
theorem fuse_never_ready_again_witness :
    (fuseSteps pendingThenReady 2).1 = none ∧
      (fuseSteps pendingThenReady 2).2 = Poll.Pending :=
  fuse_never_ready_again Nat Nat pendingThenReady 42 1 (by decide) 0

/-- Modelled from the spec: a task's scheduling state (spec section 3,
"Task": queued / running / parked with a "notified" flag that coalesces
redundant wake calls).  `polling` means a worker is currently inside the
task's poll call, `queued` that the task sits on a run queue and is
guaranteed a further poll attempt, `notified` that a wake arrived while the
task was mid-poll, `completed` that a poll has returned Ready. -/
structure TaskState where
  completed : Bool
  polling : Bool
  notified : Bool
  queued : Bool
deriving DecidableEq, Repr

/-- The atomic events of the task/waker protocol.  `wake` may be interleaved
at any point, including between a poll's start and its finish, which models
a wake from any thread racing with a Pending return. -/
inductive TaskEv where
  | startPoll
  | finishPending
  | finishReady
  | wake
deriving DecidableEq, Repr

/-- Modelled from the spec: one atomic transition of the task/waker protocol
(spec sections 3 and 4.2; the `Waker`/`AtomicWaker` implementation is
re-exported at src/futures/src/lib.rs lines 307-313 from `futures_core` and
is not under src/).  A worker starting a poll dequeues the task and clears
the notified flag; a wake during a poll sets the notified flag; a Pending
return re-enqueues the task exactly when the flag is set; a wake after
completion changes nothing. -/
def taskStep (s : TaskState) : TaskEv → TaskState
  | TaskEv.startPoll =>
      if s.queued && !s.polling && !s.completed then
        { s with queued := false, notified := false, polling := true }
      else s
  | TaskEv.finishPending =>
      if s.polling then
        { s with polling := false, queued := s.notified, notified := false }
      else s
  | TaskEv.finishReady =>
      if s.polling then { s with polling := false, completed := true }
      else s
  | TaskEv.wake =>
      if s.completed then s
      else if s.polling then { s with notified := true }
      else { s with queued := true }

/-- `n` consecutive wake calls (any number of callers, coalesced). -/
def wakes : Nat → TaskState → TaskState
  | 0, s => s
  | n + 1, s => taskStep (wakes n s) TaskEv.wake

theorem wakes_during_poll (s : TaskState) (hp : s.polling = true)
    (hc : s.completed = false) :
    ∀ n, wakes (n + 1) s = { s with notified := true } := by
  intro n
  induction n with
  | zero =>
      show taskStep s TaskEv.wake = _
      simp [taskStep, hp, hc]
  | succ n ih =>
      show taskStep (wakes (n + 1) s) TaskEv.wake = _
      rw [ih]
      simp [taskStep, hp, hc]

/-- C2: the wake contract.  (1) Any positive number of wake calls racing
with a poll that then returns Pending leaves the task queued, i.e. the task
is guaranteed at least one further poll attempt — no wake is lost.  (2) A
wake after the task's completion is a no-op on the task state.  (3) A queued
task can indeed start that further poll attempt. -/
theorem wake_contract (s t u : TaskState) (n : Nat) :
    (s.polling = true → s.completed = false →
      (taskStep (wakes (n + 1) s) TaskEv.finishPending).queued = true) ∧
    (t.completed = true → taskStep t TaskEv.wake = t) ∧
    (u.queued = true → u.polling = false → u.completed = false →
      (taskStep u TaskEv.startPoll).polling = true) := by
  refine ⟨fun hp hc => ?_, fun hc => ?_, fun hq hp hc => ?_⟩
  · rw [wakes_during_poll s hp hc n]
    simp [taskStep, hp]
  · simp [taskStep, hc]
  · simp [taskStep, hq, hp, hc]

/-- Witness for C2 at concrete task states: a mid-poll task (woken twice),
a completed task, and a queued idle task. -/
theorem wake_contract_witness :
    (taskStep (wakes 2 ⟨false, true, false, false⟩)
        TaskEv.finishPending).queued = true ∧
    taskStep ⟨true, false, false, false⟩ TaskEv.wake =
      ⟨true, false, false, false⟩ ∧
    (taskStep ⟨false, false, false, true⟩ TaskEv.startPoll).polling = true := by
  have h := wake_contract ⟨false, true, false, false⟩
    ⟨true, false, false, false⟩ ⟨false, false, false, true⟩ 1
  exact ⟨h.1 rfl rfl, h.2.1 rfl, h.2.2 rfl rfl rfl⟩

/-- The state and outcome of the (n+1)-st poll of `m` starting from state
`s` and polling sequentially (within one task, poll calls are strictly
sequential). -/
def pollFrom (m : FutureM σ α) (s : σ) : Nat → σ × Poll α
  | 0 => m.poll s
  | n + 1 => m.poll (pollFrom m s n).1

/-- The poll sequence of `m` from its initial state. -/
def pollSeq (m : FutureM σ α) : Nat → σ × Poll α := pollFrom m m.init

/-- The future `m` resolves to the value `v` on its (n+1)-st poll, the
earlier polls all returning `Pending`. -/
def resolvesTo (m : FutureM σ α) (v : α) (n : Nat) : Prop :=
  (pollSeq m n).2 = Poll.Ready v ∧
    ∀ k, k < n → (pollSeq m k).2 = Poll.Pending

/-- Modelled from the spec: the loop at the heart of the blocking
run-to-completion entry point `ThreadPool::run` (re-exported at
src/futures/src/lib.rs line 124 from `futures_executor`, implementation not
under src/): keep advancing the spawned task until it resolves, then hand
its value back to the blocked caller.  The fuel argument bounds the number
of polls the model performs; `none` means the future had not resolved
within the given fuel. -/
def runAux (m : FutureM σ α) : σ → Nat → Option α
  | _, 0 => none
  | s, fuel + 1 =>
      match m.poll s with
      | (_, Poll.Ready v) => some v
      | (s1, Poll.Pending) => runAux m s1 fuel

/-- `ThreadPool::run` on a freshly spawned `m` with the given fuel. -/
def threadPoolRun (m : FutureM σ α) (fuel : Nat) : Option α :=
  runAux m m.init fuel

theorem pollFrom_shift (m : FutureM σ α) (s s1 : σ) (p : Poll α)
    (h : m.poll s = (s1, p)) :
    ∀ k, pollFrom m s (k + 1) = pollFrom m s1 k := by
  intro k
  induction k with
  | zero =>
      show m.poll (pollFrom m s 0).1 = _
      show m.poll (m.poll s).1 = m.poll s1
      rw [h]
  | succ k ih =>
      show m.poll (pollFrom m s (k + 1)).1 = m.poll (pollFrom m s1 k).1
      rw [ih]

theorem runAux_resolves (m : FutureM σ α) (v : α) :
    ∀ n s, (pollFrom m s n).2 = Poll.Ready v →
      (∀ k, k < n → (pollFrom m s k).2 = Poll.Pending) →
      runAux m s (n + 1) = some v := by
  intro n
  induction n with
  | zero =>
      intro s hr _
      have hr0 : (m.poll s).2 = Poll.Ready v := hr
      rcases hp : m.poll s with ⟨s1, p⟩
      rw [hp] at hr0
      have hp2 : p = Poll.Ready v := hr0
      subst hp2
      simp [runAux, hp]
  | succ n ih =>
      intro s hr hk
      rcases hp : m.poll s with ⟨s1, p⟩
      have hp0 : p = Poll.Pending := by
        have h0 := hk 0 (Nat.succ_pos n)
        rw [show pollFrom m s 0 = m.poll s from rfl, hp] at h0
        exact h0
      subst hp0
      have hshift := pollFrom_shift m s s1 Poll.Pending hp
      have hr1 : (pollFrom m s1 n).2 = Poll.Ready v := by
        rw [← hshift n]
        exact hr
      have hk1 : ∀ k, k < n → (pollFrom m s1 k).2 = Poll.Pending := by
        intro k hlt
        rw [← hshift k]
        exact hk (k + 1) (Nat.succ_lt_succ hlt)
      show runAux m s (n + 1 + 1) = some v
      unfold runAux
      rw [hp]
      exact ih s1 hr1 hk1

/-- The future of the spec's own example, `lazy(|_| 42)`: it resolves to 42
on its very first poll. -/
def immediate42 : FutureM Unit Nat :=
  { init := (), poll := fun s => (s, Poll.Ready 42) }

/-- C3: the blocking run-to-completion entry point returns exactly the value
the future resolves to (given fuel past the resolution point), and on the
spec's concrete example a task that immediately resolves to 42 returns 42. -/
theorem threadPool_run_returns_value (σ α : Type) (m : FutureM σ α) (v : α)
    (n : Nat) (h : resolvesTo m v n) :
    threadPoolRun m (n + 1) = some v ∧ threadPoolRun immediate42 1 = some 42 :=
  ⟨runAux_resolves m v n m.init h.1 h.2, rfl⟩

/-- Witness for C3 at the concrete future `immediate42`, which resolves to
42 on its first poll. -/
theorem threadPool_run_returns_value_witness :
    threadPoolRun immediate42 1 = some 42 :=
  (threadPool_run_returns_value Unit Nat immediate42 42 0
    ⟨rfl, fun k hk => absurd hk (Nat.not_lt_zero k)⟩).2

/-- Modelled from the spec: the state of the bounded multi-producer queue
channel `mpsc` (re-exported at src/futures/src/lib.rs line 54 from
`futures_channel`, implementation not under src/): a bounded queue of fixed
capacity `cap`, the number of live sender handles, and running counters of
items sent and received (spec section 3, "Multi-producer queue channel"). -/
structure MpscState (α : Type) where
  cap : Nat
  queue : List α
  senders : Nat
  sent : Nat
  received : Nat
deriving DecidableEq, Repr

/-- A fresh bounded channel of capacity `cap` with `senders0` sender
handles and an empty queue. -/
def mpscInit (α : Type) (cap senders0 : Nat) : MpscState α :=
  { cap := cap, queue := [], senders := senders0, sent := 0, received := 0 }

/-- Modelled from the spec: one poll of a blocking-style send.  When the
queue is below capacity the item is enqueued and the poll is `Ready`;
when the queue is full the send returns `Pending` (the sender's waker is
registered) and the state is unchanged. -/
def mpscSendPoll (s : MpscState α) (a : α) : MpscState α × Poll Unit :=
  if s.queue.length < s.cap then
    ({ s with queue := s.queue ++ [a], sent := s.sent + 1 }, Poll.Ready ())
  else (s, Poll.Pending)

/-- Modelled from the spec: one poll of the receiver.  A queued item is
delivered in FIFO order as `Ready (some a)`; an empty queue yields `Pending`
while a sender remains open and `Ready none` (exhaustion) once the last
sender is dropped. -/
def mpscRecvPoll (s : MpscState α) : MpscState α × Poll (Option α) :=
  match s.queue with
  | [] =>
      if s.senders = 0 then (s, Poll.Ready none) else (s, Poll.Pending)
  | a :: rest =>
      ({ s with queue := rest, received := s.received + 1 },
        Poll.Ready (some a))

/-- Dropping one sender handle. -/
def mpscDropSender (s : MpscState α) : MpscState α :=
  { s with senders := s.senders - 1 }

/-- Cloning a sender handle. -/
def mpscCloneSender (s : MpscState α) : MpscState α :=
  { s with senders := s.senders + 1 }

/-- The states of the channel reachable from a fresh channel of capacity
`cap` by any interleaving of send polls, receive polls and sender handle
clones/drops. -/
inductive MpscReachable (α : Type) (cap senders0 : Nat) : MpscState α → Prop
  | init : MpscReachable α cap senders0 (mpscInit α cap senders0)
  | send (s : MpscState α) (a : α) (h : MpscReachable α cap senders0 s) :
      MpscReachable α cap senders0 (mpscSendPoll s a).1
  | recv (s : MpscState α) (h : MpscReachable α cap senders0 s) :
      MpscReachable α cap senders0 (mpscRecvPoll s).1
  | dropSender (s : MpscState α) (h : MpscReachable α cap senders0 s) :
      MpscReachable α cap senders0 (mpscDropSender s)
  | cloneSender (s : MpscState α) (h : MpscReachable α cap senders0 s) :
      MpscReachable α cap senders0 (mpscCloneSender s)

/-- C4: in every reachable state of the bounded channel, items sent minus
items received equals the number of items currently queued, that number is
at most the capacity (so the difference lies in [0, C]), and with capacity
1 the spec's concrete scenario holds: send 1 succeeds, send 2 returns
Pending with the state unchanged, receive yields 1, the retried send 2 then
succeeds, and a further receive yields 2. -/
theorem mpsc_count_invariant (α : Type) (cap senders0 : Nat)
    (s : MpscState α) (h : MpscReachable α cap senders0 s) :
    (s.sent = s.received + s.queue.length ∧ s.queue.length ≤ s.cap) ∧
    ((mpscSendPoll (mpscInit Nat 1 1) 1).2 = Poll.Ready () ∧
      (mpscSendPoll (mpscSendPoll (mpscInit Nat 1 1) 1).1 2) =
        ((mpscSendPoll (mpscInit Nat 1 1) 1).1, Poll.Pending) ∧
      (mpscRecvPoll (mpscSendPoll (mpscInit Nat 1 1) 1).1).2 =
        Poll.Ready (some 1) ∧
      (mpscSendPoll (mpscRecvPoll (mpscSendPoll (mpscInit Nat 1 1) 1).1).1
          2).2 = Poll.Ready () ∧
      (mpscRecvPoll (mpscSendPoll
          (mpscRecvPoll (mpscSendPoll (mpscInit Nat 1 1) 1).1).1 2).1).2 =
        Poll.Ready (some 2)) := by
  refine ⟨?_, by decide, by decide, by decide, by decide, by decide⟩
  induction h with
  | init => simp [mpscInit]
  | send s a hr ih =>
      unfold mpscSendPoll
      by_cases hlt : s.queue.length < s.cap
      · simp only [hlt, if_pos]
        constructor
        · simp [ih.1]
          omega
        · simp
          omega
      · simp only [hlt, if_neg, not_false_iff]
        exact ih
  | recv s hr ih =>
      unfold mpscRecvPoll
      rcases hq : s.queue with _ | ⟨a, rest⟩
      · by_cases hs : s.senders = 0 <;> simp [hs, ih.1, ih.2]
      · have h1 := ih.1
        have h2 := ih.2
        rw [hq] at h1 h2
        simp at h1 h2 ⊢
        omega
  | dropSender s hr ih => exact ⟨ih.1, ih.2⟩
  | cloneSender s hr ih => exact ⟨ih.1, ih.2⟩

/-- Witness for C4 at a concrete reachable state: after one successful send
on a fresh capacity-1 channel the counters satisfy the invariant. -/
theorem mpsc_count_invariant_witness :
    ((mpscSendPoll (mpscInit Nat 1 1) 1).1.sent =
        (mpscSendPoll (mpscInit Nat 1 1) 1).1.received +
          (mpscSendPoll (mpscInit Nat 1 1) 1).1.queue.length ∧
      (mpscSendPoll (mpscInit Nat 1 1) 1).1.queue.length ≤
        (mpscSendPoll (mpscInit Nat 1 1) 1).1.cap) :=
  (mpsc_count_invariant Nat 1 1 (mpscSendPoll (mpscInit Nat 1 1) 1).1
    (MpscReachable.send (mpscInit Nat 1 1) 1 MpscReachable.init)).1

/-- Modelled from the spec: the two kinds of spawn failure,
`SpawnErrorKind {Shutdown, Full}` (the type is re-exported at
src/futures/src/lib.rs line 309 from `futures_core`; its definition is not
under src/). -/
inductive SpawnErrorKind where
  | Shutdown
  | Full
deriving DecidableEq, Repr

/-- Modelled from the spec: the queue-facing state of a generic executor:
whether it has been shut down, and how many tasks its run queue holds out
of its saturation bound. -/
structure ExecutorState where
  isShutdown : Bool
  queueLen : Nat
  queueCap : Nat
deriving DecidableEq, Repr

/-- Modelled from the spec: `spawn` on the generic executor abstraction
(spec section 4.3).  It either enqueues the type-erased task and succeeds,
or fails with `Shutdown` (executor shut down) or `Full` (queue saturated);
on failure the error carries the task itself back to the caller and the
executor state is untouched, so work is never silently discarded. -/
def spawnObj (e : ExecutorState) (task : τ) :
    ExecutorState × Except (SpawnErrorKind × τ) Unit :=
  if e.isShutdown then (e, Except.error (SpawnErrorKind.Shutdown, task))
  else if e.queueCap ≤ e.queueLen then
    (e, Except.error (SpawnErrorKind.Full, task))
  else ({ e with queueLen := e.queueLen + 1 }, Except.ok ())

/-- C5: every spawn either succeeds (enqueueing the task), or fails with
exactly one of the two errors `Shutdown` or `Full`; in each failure case
the very task handed in is returned to the caller undropped and the
executor state is unchanged. -/
theorem spawn_error_taxonomy (τ : Type) (e : ExecutorState) (t : τ) :
    (spawnObj e t = ({ e with queueLen := e.queueLen + 1 }, Except.ok ())) ∨
    (spawnObj e t = (e, Except.error (SpawnErrorKind.Shutdown, t))) ∨
    (spawnObj e t = (e, Except.error (SpawnErrorKind.Full, t))) := by
  unfold spawnObj
  by_cases hs : e.isShutdown
  · right; left; simp [hs]
  · by_cases hf : e.queueCap ≤ e.queueLen
    · right; right; simp [hs, hf]
    · left; simp [hs, hf]

/-- The single-value channel's send-side errors (spec section 7). -/
inductive SendError where
  | AlreadySent
  | Disconnected
deriving DecidableEq, Repr

/-- The single-value channel's receive-side error: the peer was dropped
before completion (spec section 7). -/
inductive Canceled where
  | canceled
deriving DecidableEq, Repr

/-- Modelled from the spec: the state of the single-value (oneshot) channel
(re-exported at src/futures/src/lib.rs line 54 from `futures_channel`,
implementation not under src/): a one-slot mailbox with lifecycle
Empty → Filled(value) | Closed, a flag recording whether send has already
happened, and liveness of the two endpoints. -/
structure OneshotState (α : Type) where
  slot : Option α
  sent : Bool
  senderAlive : Bool
  receiverAlive : Bool
deriving DecidableEq, Repr

/-- A fresh oneshot channel: empty slot, nothing sent, both endpoints
alive. -/
def oneshotInit (α : Type) : OneshotState α :=
  { slot := none, sent := false, senderAlive := true, receiverAlive := true }

/-- Modelled from the spec: `send(value)` transitions Empty → Filled exactly
once; a second call fails with `AlreadySent`, and sending after the receiver
is dropped fails with `Disconnected`; a failed send leaves the channel
unchanged. -/
def oneshotSend (s : OneshotState α) (v : α) :
    OneshotState α × Except SendError Unit :=
  if !s.receiverAlive then (s, Except.error SendError.Disconnected)
  else if s.sent then (s, Except.error SendError.AlreadySent)
  else ({ s with slot := some v, sent := true }, Except.ok ())

/-- Dropping the sender endpoint without sending. -/
def oneshotDropSender (s : OneshotState α) : OneshotState α :=
  { s with senderAlive := false }

/-- Modelled from the spec: one poll of the oneshot receiver: `Ready value`
once filled, `Pending` while empty with the sender alive, and
`Ready (error Canceled)` if the sender was dropped before any send. -/
def oneshotRecvPoll (s : OneshotState α) :
    OneshotState α × Poll (Except Canceled α) :=
  match s.slot with
  | some v => ({ s with slot := none }, Poll.Ready (Except.ok v))
  | none =>
      if s.senderAlive then (s, Poll.Pending)
      else (s, Poll.Ready (Except.error Canceled.canceled))

/-- C6: on the single-value channel, receiving before any send is
`Pending`; dropping the sender without sending makes the next receive
resolve to the error `Canceled`; sending twice succeeds the first time,
fails the second time with `AlreadySent`, and the receiver still gets the
first value unchanged. -/
theorem oneshot_protocol :
    (oneshotRecvPoll (oneshotInit Nat)).2 = Poll.Pending ∧
    (oneshotRecvPoll (oneshotDropSender (oneshotInit Nat))).2 =
      Poll.Ready (Except.error Canceled.canceled) ∧
    (oneshotSend (oneshotInit Nat) 7).2 = Except.ok () ∧
    (oneshotSend (oneshotSend (oneshotInit Nat) 7).1 8) =
      ((oneshotSend (oneshotInit Nat) 7).1,
        Except.error SendError.AlreadySent) ∧
    (oneshotRecvPoll (oneshotSend (oneshotSend (oneshotInit Nat) 7).1 8).1).2 =
      Poll.Ready (Except.ok 7) := by
  exact ⟨rfl, rfl, rfl, rfl, rfl⟩

/-- C7: on an empty queue, a receive poll returns `Pending` exactly when at
least one sender handle remains open, and returns `Ready none` (exhaustion)
exactly when the last sender has been dropped. -/
theorem mpsc_recv_exhaustion (α : Type) (s : MpscState α)
    (h : s.queue = []) :
    ((mpscRecvPoll s).2 = Poll.Pending ↔ s.senders ≠ 0) ∧
    ((mpscRecvPoll s).2 = Poll.Ready none ↔ s.senders = 0) := by
  unfold mpscRecvPoll
  rw [h]
  by_cases hs : s.senders = 0 <;> simp [hs]

/-- Witness for C7: a drained queue with two senders open is `Pending`, a
drained queue with no sender left is `Ready none`. -/
theorem mpsc_recv_exhaustion_witness :
    (mpscRecvPoll
        { cap := 1, queue := [], senders := 2, sent := 0, received := 0
          : MpscState Nat }).2 = Poll.Pending ∧
    (mpscRecvPoll
        { cap := 1, queue := [], senders := 0, sent := 3, received := 3
          : MpscState Nat }).2 = Poll.Ready none := by
  constructor
  · exact (mpsc_recv_exhaustion Nat _ rfl).1.mpr (by decide)
  · exact (mpsc_recv_exhaustion Nat _ rfl).2.mpr rfl

/-- A sweep of the single-threaded cooperative executor, on tasks modelled
by the number of poll steps each still needs (0 = completed).  Modelled from
the spec (`LocalPool` is re-exported at src/futures/src/lib.rs line 122 from
`futures_executor`, implementation not under src/): a sweep advances every
currently-ready task once, so each positive counter drops by one and
completed tasks are not advanced. -/
def sweepStep (ts : List Nat) : List Nat := ts.map (fun n => n - 1)

/-- The order in which one sweep polls the tasks: the indices of the
currently-ready tasks, in round-robin (ascending) order. -/
def sweepLog (ts : List Nat) : List Nat :=
  (List.range ts.length).filter (fun i => ts.getD i 0 != 0)

/-- The task counters after `n` sweeps. -/
def runSteps : List Nat → Nat → List Nat
  | ts, 0 => ts
  | ts, n + 1 => runSteps (sweepStep ts) n

/-- The concatenated poll order of `n` sweeps. -/
def runLog : List Nat → Nat → List Nat
  | _, 0 => []
  | ts, n + 1 => sweepLog ts ++ runLog (sweepStep ts) n

/-- C8: each sweep of the single-threaded executor polls exactly the
currently-ready tasks, in ascending (round-robin) order, advancing each by
one step; three independent tasks of 3 steps each are advanced once per
sweep with interleaved completion — the poll order is
0,1,2,0,1,2,0,1,2, after each of the first two sweeps no task has yet
completed, and all three complete on the third sweep. -/
theorem localPool_round_robin :
    (∀ ts : List Nat, ∀ i,
      i ∈ sweepLog ts ↔ i < ts.length ∧ ts.getD i 0 ≠ 0) ∧
    (∀ ts : List Nat, List.Pairwise (fun i j => i < j) (sweepLog ts)) ∧
    (∀ ts : List Nat, ∀ i, (sweepStep ts).getD i 0 = ts.getD i 0 - 1) ∧
    (runLog [3, 3, 3] 3 = [0, 1, 2, 0, 1, 2, 0, 1, 2] ∧
      runSteps [3, 3, 3] 1 = [2, 2, 2] ∧
      runSteps [3, 3, 3] 2 = [1, 1, 1] ∧
      runSteps [3, 3, 3] 3 = [0, 0, 0]) := by
  refine ⟨?_, ?_, ?_, by decide, by decide, by decide, by decide⟩
  · intro ts i
    simp [sweepLog, List.mem_filter, List.mem_range, and_comm]
  · intro ts
    exact List.Pairwise.sublist (List.filter_sublist _)
      (List.pairwise_lt_range _)
  · intro ts i
    simp [sweepStep, List.getD]
    rcases hg : ts[i]? with _ | v
    · simp [List.getElem?_map, hg]
    · simp [List.getElem?_map, hg]

/-- The crate's cargo features that appear in src/futures/src/lib.rs:
`std` (lines 41, 57, 153, 161, 207, 221, 246, 279, 315) and `nightly`
(lines 33, 34, 312). -/
structure Features where
  std : Bool
  nightly : Bool
deriving DecidableEq, Repr

/-- The top-level public modules declared by src/futures/src/lib.rs. -/
inductive CrateModule where
  | channel
  | executor
  | future
  | io
  | prelude
  | sink
  | stream
  | task
deriving DecidableEq, Repr

/-- The crate-level attribute `#![no_std]` at src/futures/src/lib.rs
line 26: the base crate links no standard library. -/
def crateNoStd : Bool := true

/-- Whether a top-level module of the crate exists in the public interface
under the given features, read off the `#[cfg(feature = "std")]` attributes
in src/futures/src/lib.rs: `channel` (line 41), `executor` (line 57) and
`io` (line 161) are gated on `std`; `future`, `prelude`, `sink`, `stream`
and `task` are unconditional. -/
def moduleEnabled (f : Features) : CrateModule → Bool
  | CrateModule.channel => f.std
  | CrateModule.executor => f.std
  | CrateModule.io => f.std
  | CrateModule.future => true
  | CrateModule.prelude => true
  | CrateModule.sink => true
  | CrateModule.stream => true
  | CrateModule.task => true

/-- C9: the crate is `no_std`, and the `channel`, `executor` and `io`
modules exist in the public interface exactly when the `std` feature is
enabled — in particular a build without `std` exposes no channel, executor
or io operation at all, while the core `future`/`task` modules remain. -/
theorem no_std_feature_gating (f : Features) :
    crateNoStd = true ∧
    moduleEnabled f CrateModule.channel = f.std ∧
    moduleEnabled f CrateModule.executor = f.std ∧
    moduleEnabled f CrateModule.io = f.std ∧
    (f.std = false →
      moduleEnabled f CrateModule.channel = false ∧
      moduleEnabled f CrateModule.executor = false ∧
      moduleEnabled f CrateModule.io = false) ∧
    moduleEnabled f CrateModule.future = true ∧
    moduleEnabled f CrateModule.task = true := by
  refine ⟨rfl, rfl, rfl, rfl, fun h => ?_, rfl, rfl⟩
  simp [moduleEnabled, h]

/-- Witness for C9 at the concrete no-std build: no channel, executor or io
module is present. -/
theorem no_std_feature_gating_witness :
    moduleEnabled { std := false, nightly := false } CrateModule.channel =
        false ∧
      moduleEnabled { std := false, nightly := false } CrateModule.executor =
        false ∧
      moduleEnabled { std := false, nightly := false } CrateModule.io =
        false :=
  (no_std_feature_gating { std := false, nightly := false }).2.2.2.2.1 rfl

/-- Modelled from the spec: the per-thread execution-context flag behind
`enter` (re-exported at src/futures/src/lib.rs line 121 from
`futures_executor`, implementation not under src/): the "current executor"
handle is "set on entry, cleared on exit of the driving call" (spec
section 5). -/
structure ExecutionContext where
  entered : Bool
deriving DecidableEq, Repr

/-- The error returned by `enter` on a thread already inside an executor's
driving call. -/
inductive EnterError where
  | alreadyEntered
deriving DecidableEq, Repr

/-- Modelled from the spec: `enter` marks the current thread as being inside
an executor's driving call; if the thread is already inside one, it fails
with `EnterError` and leaves the thread's context unchanged instead of
nesting. -/
def enter (t : ExecutionContext) : ExecutionContext × Except EnterError Unit :=
  if t.entered then (t, Except.error EnterError.alreadyEntered)
  else ({ entered := true }, Except.ok ())

/-- Modelled from the spec: dropping the `Enter` guard clears the thread's
execution context. -/
def dropEnter (_ : ExecutionContext) : ExecutionContext :=
  { entered := false }

/-- C10: `enter` on a thread already inside a driving call fails with
`EnterError` and leaves the existing execution context unchanged; on a free
thread it succeeds and marks the context entered; dropping the returned
guard always clears the context. -/
theorem enter_no_nesting (t : ExecutionContext) :
    (t.entered = true →
      enter t = (t, Except.error EnterError.alreadyEntered)) ∧
    (t.entered = false →
      enter t = ({ entered := true }, Except.ok ())) ∧
    (dropEnter (enter t).1).entered = false := by
  refine ⟨fun h => ?_, fun h => ?_, rfl⟩
  · simp [enter, h]
  · simp [enter, h]

/-- Witness for C10 at the two concrete thread contexts: an entered thread
is refused unchanged, a free thread enters and the dropped guard clears the
flag. -/
theorem enter_no_nesting_witness :
    enter { entered := true } =
        ({ entered := true }, Except.error EnterError.alreadyEntered) ∧
      enter { entered := false } = ({ entered := true }, Except.ok ()) ∧
      (dropEnter (enter { entered := false }).1).entered = false := by
  have h1 := enter_no_nesting { entered := true }
  have h2 := enter_no_nesting { entered := false }
  exact ⟨h1.1 rfl, h2.2.1 rfl, h2.2.2⟩

end Futures
